import Mathlib

/-!
Shallow embedding of `@ga-ut/fetcher` (src/index.ts): a fetch wrapper with
base configuration, request/response interceptor chains, header/option
merging, URL normalization, content-type driven response decoding and
structured errors on non-success responses.

JavaScript string-keyed records are modelled by their lookup behaviour
(`String → Option String`); object spread `\x7b...a, ...b\x7d` and
`delete m[k]` are modelled pointwise.  Async sequencing collapses to pure
sequential function application (each interceptor's awaited output is the
next one's input), and the transport primitive `fetch` is an explicit
function argument `transport : Request → Response`.
-/

namespace GaUt

/-- A JavaScript string-keyed record observed through key lookup. -/
def HMap : Type := String → Option String

/-- The empty record. -/
def HMap.empty : HMap := fun _ => none

/-- A one-entry record. -/
def HMap.single (key value : String) : HMap :=
  fun k => if k = key then some value else none

/-- Lookup semantics of the spread `\x7b...base, ...override\x7d`:
the override's entry wins when both records carry the key. -/
def HMap.spread (base override : HMap) : HMap :=
  fun k =>
    match override k with
    | some v => some v
    | none => base k

/-- `delete m[key]` (src/index.ts line 126): removes exactly `key`. -/
def HMap.erase (m : HMap) (key : String) : HMap :=
  fun k => if k = key then none else m k

/-- A body value supplied by the caller: either a `FormData` container or
any other JavaScript object (content kept opaque). -/
inductive BodyValue where
  | formData (content : String)
  | jsObject (content : String)
  deriving DecidableEq

/-- `typeof FormData !== "undefined" && body instanceof FormData`
(src/index.ts lines 112-113), in an environment providing `FormData`. -/
def isFormData (body : Option BodyValue) : Bool :=
  match body with
  | some (.formData _) => true
  | _ => false

/-- The body actually attached to the outgoing request: absent,
`JSON.stringify`-serialized, or the raw value passed through.
`JSON.stringify(undefined)` is `undefined`, so an omitted body yields
`noBody` on both branches of the ternary at src/index.ts lines 134-137. -/
inductive EncodedBody where
  | noBody
  | serialized (v : BodyValue)
  | raw (v : BodyValue)
  deriving DecidableEq

/-- `contentType === "application/json" ? JSON.stringify(body) : body`
(src/index.ts lines 134-137), keyed on the final header record's
`Content-Type` entry. -/
def encodeBody (contentType : Option String) (body : Option BodyValue) : EncodedBody :=
  if contentType = some "application/json" then
    match body with
    | some v => .serialized v
    | none => .noBody
  else
    match body with
    | some v => .raw v
    | none => .noBody

/-- The outgoing request value: method, URL, header record, encoded body,
and the residual transport options (the init entries other than
`method`/`headers`/`body`, which the construction at src/index.ts
lines 130-138 overrides explicitly). -/
structure Request where
  url : String
  method : String
  headers : HMap
  body : EncodedBody
  opts : HMap

/-- `request.clone()` duplicates the body stream; observationally the
cloned value carries the same fields. -/
def Request.clone (r : Request) : Request := r

/-- A transport response: status plus the two headers the decoder reads
(via the case-insensitive platform `Headers.get`, modelled as fields)
and an opaque body. -/
structure Response where
  status : Nat
  contentDisposition : Option String := none
  contentType : Option String := none
  body : String := ""
  deriving DecidableEq

/-- `response.ok`: the status is in the success range 200-299. -/
def Response.ok (r : Response) : Bool := 200 ≤ r.status && r.status ≤ 299

/-- The `{ request, response }` pair threaded through response
interceptors (src/index.ts lines 20-23). -/
structure RespCtx where
  request : Request
  response : Response

/-- `FetcherError` (src/index.ts lines 7-16): carries the request URL and
the response status code. -/
structure FetcherError where
  url : String
  statusCode : Nat
  deriving DecidableEq

/-- The decoded result of a successful call: binary blob, text, or JSON
(src/index.ts lines 153-169). -/
inductive Decoded where
  | blob (body : String)
  | text (body : String)
  | json (body : String)
  deriving DecidableEq

/-- JavaScript `String.prototype.includes`: the pattern occurs at some
position of the string. -/
def jsIncludes (s pat : String) : Bool :=
  (List.range (s.length + 1)).any (fun i => pat.data.isPrefixOf (s.data.drop i))

/-- `option?.includes(pat)` on a possibly-absent header value: an absent
header never matches. -/
def optIncludes (o : Option String) (pat : String) : Bool :=
  match o with
  | some s => jsIncludes s pat
  | none => false

/-- Response decoding policy (src/index.ts lines 153-169): disposition
attachment → blob; `text/` content type → text; binary content-type
families → blob; otherwise JSON. -/
def decodeBody (response : Response) : Decoded :=
  let disposition := response.contentDisposition
  let contentType := response.contentType
  if optIncludes disposition "attachment" then .blob response.body
  else if optIncludes contentType "text/" then .text response.body
  else if (optIncludes contentType "image/" || optIncludes contentType "audio/" ||
      optIncludes contentType "video/" || optIncludes contentType "application/vnd" ||
      contentType = some "application/octet-stream" ||
      contentType = some "application/zip" : Bool) then .blob response.body
  else .json response.body

/-- JavaScript `String.prototype.startsWith`: prefix test on the
character sequence. -/
def jsStartsWith (s pat : String) : Bool :=
  pat.data.isPrefixOf s.data

/-- JavaScript `String.prototype.trim`: strip whitespace from both ends. -/
def jsTrim (s : String) : String :=
  ⟨((s.data.dropWhile Char.isWhitespace).reverse.dropWhile Char.isWhitespace).reverse⟩

/-- URL normalization (src/index.ts lines 200-212): trim, leave `http`
prefixed results unchanged, otherwise ensure a leading slash.
(`result[0] !== "/"` agrees with `!startsWith "/"` also on the empty
string: both prepend.) -/
def normalizeUrl (url : String) : String :=
  let result := jsTrim url
  if jsStartsWith result "http" || jsStartsWith result "https" then result
  else if !(jsStartsWith result "/") then "/" ++ result
  else result

/-- Default error factory (src/index.ts lines 27-34): url from the cloned
request, statusCode from the response status. -/
def defaultThrower : Response → Request → FetcherError :=
  fun response request => { url := request.url, statusCode := response.status }

/-- The fetcher state: interceptor lists, base configuration and the
error factory (src/index.ts lines 18-34), with the documented defaults. -/
structure Fetcher where
  requestInterceptors : List (Request → Request) := []
  responseInterceptors : List (RespCtx → RespCtx) := []
  baseUrl : String := ""
  baseHeaders : HMap := HMap.empty
  baseOptions : HMap := HMap.empty
  baseThrower : Response → Request → FetcherError := defaultThrower

/-- `addRequestInterceptor` pushes the handler at the end of the list
(src/index.ts lines 61-63). -/
def Fetcher.addRequestInterceptor (f : Fetcher) (handler : Request → Request) : Fetcher :=
  { f with requestInterceptors := f.requestInterceptors ++ [handler] }

/-- `addResponseInterceptor` pushes the handler at the end of the list
(src/index.ts lines 65-69). -/
def Fetcher.addResponseInterceptor (f : Fetcher) (handler : RespCtx → RespCtx) : Fetcher :=
  { f with responseInterceptors := f.responseInterceptors ++ [handler] }

/-- `requestHandler` (src/index.ts lines 172-180): sequential left fold,
each interceptor's awaited result becomes the next one's input. -/
def requestHandler (interceptors : List (Request → Request)) (request : Request) : Request :=
  interceptors.foldl (fun result interceptor => interceptor result) request

/-- The fold inside `responseHandler` (src/index.ts lines 191-195):
each interceptor's awaited context becomes the next one's input. -/
def responseChain (interceptors : List (RespCtx → RespCtx)) (ctx : RespCtx) : RespCtx :=
  interceptors.foldl (fun c interceptor => interceptor c) ctx

/-- `responseHandler` (src/index.ts lines 182-198): fold the chain over
the initial context, return the final context's response. -/
def responseHandler (interceptors : List (RespCtx → RespCtx)) (ctx : RespCtx) : Response :=
  (responseChain interceptors ctx).response

/-- Per-call options: per-call headers plus the remaining transport
options (`Options = Omit RequestInit method body`). -/
structure Options where
  headers : HMap := HMap.empty
  opts : HMap := HMap.empty

/-- The `params` object `action` receives (src/index.ts line 3): method,
optional body, and the per-call options destructured into `rest`. -/
structure ActionParams where
  method : String
  body : Option BodyValue := none
  headers : HMap := HMap.empty
  opts : HMap := HMap.empty

/-- Header merge `\x7b...this.baseHeaders, ...rest.headers\x7d`
(src/index.ts lines 115-118): per-call entries win. -/
def Fetcher.mergedHeaders (f : Fetcher) (params : ActionParams) : HMap :=
  HMap.spread f.baseHeaders params.headers

/-- The header record as it stands when the request is constructed: the
merged record, minus `Content-Type` when the body is form data
(src/index.ts lines 125-127). -/
def Fetcher.finalHeaders (f : Fetcher) (params : ActionParams) : HMap :=
  if isFormData params.body then (f.mergedHeaders params).erase "Content-Type"
  else f.mergedHeaders params

/-- Option merge `\x7b...this.baseOptions, ...rest\x7d` (src/index.ts
lines 120-123): per-call entries win. -/
def Fetcher.mergedOptions (f : Fetcher) (params : ActionParams) : HMap :=
  HMap.spread f.baseOptions params.opts

/-- `new Request(normalizedUrl, ...)` (src/index.ts lines 129-138): the
raw request before request interceptors run. -/
def Fetcher.buildRequest (f : Fetcher) (url : String) (params : ActionParams) : Request :=
  let headers := f.finalHeaders params
  { url := normalizeUrl (f.baseUrl ++ url)
    method := params.method
    headers := headers
    body := encodeBody (headers "Content-Type") params.body
    opts := f.mergedOptions params }

/-- The request actually dispatched (src/index.ts line 140): the raw
request run through the request interceptor chain. -/
def Fetcher.dispatched (f : Fetcher) (url : String) (params : ActionParams) : Request :=
  requestHandler f.requestInterceptors (f.buildRequest url params)

/-- The response evaluated by the success check (src/index.ts lines
142-147): the transport response for the dispatched request, run through
the response interceptor chain alongside the request clone. -/
def Fetcher.finalResponse (f : Fetcher) (transport : Request → Response)
    (url : String) (params : ActionParams) : Response :=
  let request := f.dispatched url params
  responseHandler f.responseInterceptors
    { request := request.clone, response := transport request }

/-- `action` (src/index.ts lines 110-170): build, intercept, dispatch,
intercept the response, then either fail via the error factory or decode
the body. -/
def Fetcher.action (f : Fetcher) (transport : Request → Response)
    (url : String) (params : ActionParams) : Except FetcherError Decoded :=
  let reqClone := (f.dispatched url params).clone
  let response := f.finalResponse transport url params
  if response.ok then .ok (decodeBody response)
  else .error (f.baseThrower response reqClone)

/-- `get` (src/index.ts lines 71-76). -/
def Fetcher.get (f : Fetcher) (transport : Request → Response)
    (url : String) (options : Options) : Except FetcherError Decoded :=
  f.action transport url
    { method := "GET", headers := options.headers, opts := options.opts }

/-- `post` (src/index.ts lines 78-84): required `data` becomes the body. -/
def Fetcher.post (f : Fetcher) (transport : Request → Response)
    (url : String) (data : BodyValue) (options : Options) : Except FetcherError Decoded :=
  f.action transport url
    { method := "POST", body := some data
      headers := options.headers, opts := options.opts }

/-- `patch` (src/index.ts lines 86-92): required `data` becomes the body. -/
def Fetcher.patch (f : Fetcher) (transport : Request → Response)
    (url : String) (data : BodyValue) (options : Options) : Except FetcherError Decoded :=
  f.action transport url
    { method := "PATCH", body := some data
      headers := options.headers, opts := options.opts }

/-- `put` (src/index.ts lines 94-100): required `data` becomes the body. -/
def Fetcher.put (f : Fetcher) (transport : Request → Response)
    (url : String) (data : BodyValue) (options : Options) : Except FetcherError Decoded :=
  f.action transport url
    { method := "PUT", body := some data
      headers := options.headers, opts := options.opts }

/-- `delete` (src/index.ts lines 102-108): the declared signature
`delete<T>(url: string, data: object, options?: Options)` takes `data`
as a required parameter, exactly like `post`/`patch`/`put`. -/
def Fetcher.delete (f : Fetcher) (transport : Request → Response)
    (url : String) (data : BodyValue) (options : Options) : Except FetcherError Decoded :=
  f.action transport url
    { method := "DELETE", body := some data
      headers := options.headers, opts := options.opts }

/-- The five public verb methods. -/
inductive Verb where
  | get | post | patch | put | delete
  deriving DecidableEq

/-- Whether the verb method's declared signature takes a required `data`
parameter (src/index.ts lines 71-108: `get` has no data parameter;
`post`, `patch`, `put` and `delete` each declare `data: object`,
a required, non-optional parameter). -/
def requiresData (v : Verb) : Bool :=
  match v with
  | .get => false
  | .post => true
  | .patch => true
  | .put => true
  | .delete => true

instance : DecidableEq (Except FetcherError Decoded) :=
  fun a b =>
    match a, b with
    | .ok x, .ok y => if h : x = y then .isTrue (by rw [h]) else .isFalse (by simp [h])
    | .error x, .error y => if h : x = y then .isTrue (by rw [h]) else .isFalse (by simp [h])
    | .ok _, .error _ => .isFalse (by simp)
    | .error _, .ok _ => .isFalse (by simp)

/-- Decoding policy as the specification words it (spec 4.3 step 12):
an attachment disposition first, then textual content types, then the
binary content-type families, with JSON as the fallback. -/
def decodeSpec (response : Response) : Decoded :=
  if optIncludes response.contentDisposition "attachment" then .blob response.body
  else if optIncludes response.contentType "text/" then .text response.body
  else if (optIncludes response.contentType "image/" ||
      optIncludes response.contentType "audio/" ||
      optIncludes response.contentType "video/" ||
      optIncludes response.contentType "application/vnd" ||
      response.contentType = some "application/octet-stream" ||
      response.contentType = some "application/zip" : Bool) then .blob response.body
  else .json response.body

/-- URL normalization as the specification words it (spec 4.3 step 5):
concatenate base and path, trim, keep a result that already starts with
http/https, keep an existing leading slash, otherwise prepend one. -/
def normalizeUrlSpec (baseUrl url : String) : String :=
  let result := jsTrim (baseUrl ++ url)
  if jsStartsWith result "http" || jsStartsWith result "https" then result
  else if jsStartsWith result "/" then result
  else "/" ++ result

/-! Concrete material for witnesses and counterexamples. -/

/-- A GET-shaped params value with no body and no per-call options. -/
def demoParamsGet : ActionParams := { method := "GET" }

/-- A transport that answers every request with a bare 404. -/
def transport404 : Request → Response := fun _ => { status := 404 }

/-- A 200 response labelled application/json. -/
def okJsonResponse : Response :=
  { status := 200, contentType := some "application/json", body := "payload" }

/-- A transport that answers every request with `okJsonResponse`. -/
def transport200 : Request → Response := fun _ => okJsonResponse

/-- C1: when the final (post-interceptor) response has a non-success
status, the call fails with the error factory applied to that response
and the request clone, no decoded body is ever produced, and with the
default factory the raised error's statusCode is the response's status
and its url is the cloned (dispatched) request's URL. -/
theorem nonSuccess_fails_with_factory_value (f : Fetcher)
    (transport : Request → Response) (url : String) (params : ActionParams)
    (hok : (f.finalResponse transport url params).ok = false) :
    f.action transport url params =
      .error (f.baseThrower (f.finalResponse transport url params)
        ((f.dispatched url params).clone)) ∧
    (∀ d : Decoded, f.action transport url params ≠ .ok d) ∧
    (f.baseThrower = defaultThrower →
      f.action transport url params =
        .error { url := ((f.dispatched url params).clone).url,
                 statusCode := (f.finalResponse transport url params).status }) := by
  refine ⟨by simp [Fetcher.action, hok], ?_, ?_⟩
  · intro d
    simp [Fetcher.action, hok]
  · intro hdef
    simp [Fetcher.action, hok, hdef, defaultThrower]

/-- C1 witness: a plain fetcher against a transport answering 404. -/
theorem nonSuccess_fails_with_factory_value_witness :
    (({} : Fetcher).finalResponse transport404 "/missing" demoParamsGet).ok = false ∧
    (({} : Fetcher).action transport404 "/missing" demoParamsGet =
      .error (({} : Fetcher).baseThrower
        (({} : Fetcher).finalResponse transport404 "/missing" demoParamsGet)
        ((({} : Fetcher).dispatched "/missing" demoParamsGet).clone)) ∧
    (∀ d : Decoded, ({} : Fetcher).action transport404 "/missing" demoParamsGet ≠ .ok d) ∧
    (({} : Fetcher).baseThrower = defaultThrower →
      ({} : Fetcher).action transport404 "/missing" demoParamsGet =
        .error { url := ((({} : Fetcher).dispatched "/missing" demoParamsGet).clone).url,
                 statusCode :=
                   (({} : Fetcher).finalResponse transport404 "/missing" demoParamsGet).status })) :=
  ⟨by decide,
   nonSuccess_fails_with_factory_value {} transport404 "/missing" demoParamsGet (by decide)⟩

/-- C2: a successful call decodes the final response by the exact header
precedence of the source: attachment disposition → blob, text/ → text,
binary content-type families → blob, JSON fallback; in particular an
attachment disposition with Content-Type application/json decodes as a
blob, and a response with no Content-Type decodes as JSON. -/
theorem success_decodes_by_precedence (f : Fetcher)
    (transport : Request → Response) (url : String) (params : ActionParams)
    (hok : (f.finalResponse transport url params).ok = true) :
    f.action transport url params =
      .ok (decodeBody (f.finalResponse transport url params)) ∧
    (∀ r : Response, decodeBody r = decodeSpec r) ∧
    (∀ b : String,
      decodeBody { status := 200, contentDisposition := some "attachment",
                   contentType := some "application/json", body := b } = .blob b) ∧
    (∀ b : String, decodeBody { status := 200, body := b } = .json b) := by
  refine ⟨by simp [Fetcher.action, hok], fun r => rfl, fun b => rfl, fun b => rfl⟩

/-- C2 witness: a plain fetcher against a transport answering 200 with a
JSON content type. -/
theorem success_decodes_by_precedence_witness :
    (({} : Fetcher).finalResponse transport200 "/data" demoParamsGet).ok = true ∧
    (({} : Fetcher).action transport200 "/data" demoParamsGet =
      .ok (decodeBody (({} : Fetcher).finalResponse transport200 "/data" demoParamsGet)) ∧
    (∀ r : Response, decodeBody r = decodeSpec r) ∧
    (∀ b : String,
      decodeBody { status := 200, contentDisposition := some "attachment",
                   contentType := some "application/json", body := b } = .blob b) ∧
    (∀ b : String, decodeBody { status := 200, body := b } = .json b)) :=
  ⟨by decide, success_decodes_by_precedence {} transport200 "/data" demoParamsGet (by decide)⟩

/-- C3: with a supplied body, the outgoing request's body is the JSON
serialization of that body exactly when the header record at request
construction carries Content-Type `application/json`; for any other or
absent entry the raw value is passed through unchanged. -/
theorem body_serialized_iff_json_content_type (f : Fetcher) (url : String)
    (params : ActionParams) (v : BodyValue) (hb : params.body = some v) :
    ((f.buildRequest url params).body = .serialized v ↔
      f.finalHeaders params "Content-Type" = some "application/json") ∧
    (f.finalHeaders params "Content-Type" ≠ some "application/json" →
      (f.buildRequest url params).body = .raw v) := by
  constructor
  · by_cases hct : f.finalHeaders params "Content-Type" = some "application/json" <;>
      simp [Fetcher.buildRequest, encodeBody, hb, hct]
  · intro hct
    simp [Fetcher.buildRequest, encodeBody, hb, hct]

/-- A base header record carrying exactly Content-Type application/json. -/
def jsonCT : HMap := HMap.single "Content-Type" "application/json"

/-- A fetcher configured with the `jsonCT` base headers. -/
def fetcherJsonCT : Fetcher := { baseHeaders := jsonCT }

/-- A POST-shaped params value carrying a plain object body. -/
def objParams : ActionParams := { method := "POST", body := some (.jsObject "record") }

/-- C3 witness: with base header Content-Type application/json and an
object body, the constructed request's body is the serialized object. -/
theorem body_serialized_iff_json_content_type_witness :
    objParams.body = some (.jsObject "record") ∧
    (((fetcherJsonCT.buildRequest "/u" objParams).body = .serialized (.jsObject "record") ↔
      fetcherJsonCT.finalHeaders objParams "Content-Type" = some "application/json") ∧
    (fetcherJsonCT.finalHeaders objParams "Content-Type" ≠ some "application/json" →
      (fetcherJsonCT.buildRequest "/u" objParams).body = .raw (.jsObject "record"))) :=
  ⟨rfl, body_serialized_iff_json_content_type fetcherJsonCT "/u" objParams
    (.jsObject "record") rfl⟩

/-- C4: the constructed request's URL is `baseUrl ++ url` trimmed, kept
unchanged when it already starts with http/https, given a leading slash
otherwise; with the documented examples, trimming included. -/
theorem url_normalization_matches_spec (f : Fetcher) (url : String)
    (params : ActionParams) :
    (f.buildRequest url params).url = normalizeUrlSpec f.baseUrl url ∧
    normalizeUrl "path" = "/path" ∧
    normalizeUrl "/path" = "/path" ∧
    normalizeUrl "http://x/path" = "http://x/path" ∧
    normalizeUrl " /path  " = "/path" := by
  refine ⟨?_, by decide, by decide, by decide, by decide⟩
  show normalizeUrl (f.baseUrl ++ url) = normalizeUrlSpec f.baseUrl url
  unfold normalizeUrl normalizeUrlSpec
  by_cases h1 : (jsStartsWith (jsTrim (f.baseUrl ++ url)) "http" ||
      jsStartsWith (jsTrim (f.baseUrl ++ url)) "https") = true
  · simp [h1]
  · by_cases h2 : jsStartsWith (jsTrim (f.baseUrl ++ url)) "/" = true <;> simp [h1, h2]

/-- A POST-shaped params value carrying a form-data body. -/
def formParams : ActionParams := { method := "POST", body := some (.formData "fields") }

/-- C5 counterexample: with base header Content-Type application/json and
a form-data body, the union of base and per-call headers carries the
Content-Type entry but the constructed request's headers do not — the
request's headers are not the plain union on this call. -/
theorem headers_union_counterexample :
    HMap.spread fetcherJsonCT.baseHeaders formParams.headers "Content-Type"
      = some "application/json" ∧
    (fetcherJsonCT.buildRequest "/u" formParams).headers "Content-Type" = none := by
  decide

/-- C5 amended: the request's headers agree with the per-call-wins spread
of base and per-call headers on every key — except the Content-Type key
when the body is a form-data container (where the entry is removed) —
and the request's residual transport options are the per-call-wins
spread of base and per-call options; non-colliding keys from either side
survive into the merged records. -/
theorem merge_precedence (f : Fetcher) (url : String) (p : ActionParams) (k : String)
    (hk : isFormData p.body = false ∨ k ≠ "Content-Type") :
    ((f.buildRequest url p).headers k = HMap.spread f.baseHeaders p.headers k) ∧
    (∀ v, p.headers k = some v → (f.buildRequest url p).headers k = some v) ∧
    (p.headers k = none → (f.buildRequest url p).headers k = f.baseHeaders k) ∧
    (∀ k2, (f.buildRequest url p).opts k2 = HMap.spread f.baseOptions p.opts k2) ∧
    (∀ k2 v, p.opts k2 = some v → (f.buildRequest url p).opts k2 = some v) ∧
    (∀ k2, p.opts k2 = none → (f.buildRequest url p).opts k2 = f.baseOptions k2) := by
  have hhead : (f.buildRequest url p).headers k = HMap.spread f.baseHeaders p.headers k := by
    show f.finalHeaders p k = HMap.spread f.baseHeaders p.headers k
    unfold Fetcher.finalHeaders Fetcher.mergedHeaders
    rcases hfd : isFormData p.body with _ | _
    · simp
    · rcases hk with hk | hk
      · rw [hfd] at hk
        exact absurd hk (by simp)
      · simp [HMap.erase, hk]
  refine ⟨hhead, ?_, ?_, fun k2 => rfl, ?_, ?_⟩
  · intro v hv
    rw [hhead]
    simp [HMap.spread, hv]
  · intro hv
    rw [hhead]
    simp [HMap.spread, hv]
  · intro k2 v hv
    show f.mergedOptions p k2 = some v
    simp [Fetcher.mergedOptions, HMap.spread, hv]
  · intro k2 hv
    show f.mergedOptions p k2 = f.baseOptions k2
    simp [Fetcher.mergedOptions, HMap.spread, hv]

/-- A base header record with one custom entry. -/
def baseSideHeaders : HMap := HMap.single "X-Base" "base-value"

/-- A per-call options value with one header and one transport option. -/
def callOptions : Options :=
  { headers := HMap.single "X-Call" "call-value", opts := HMap.single "mode" "no-cors" }

/-- A fetcher with one base header and one base transport option. -/
def fetcherMergeDemo : Fetcher :=
  { baseHeaders := baseSideHeaders, baseOptions := HMap.single "mode" "cors" }

/-- A GET-shaped params value carrying the per-call options. -/
def mergeDemoParams : ActionParams :=
  { method := "GET", headers := callOptions.headers, opts := callOptions.opts }

/-- C5 witness: the amended merge statement at a concrete non-form-data
call with a base header, a per-call header, and a colliding option key. -/
theorem merge_precedence_witness :
    (isFormData mergeDemoParams.body = false ∨ "X-Base" ≠ "Content-Type") ∧
    (((fetcherMergeDemo.buildRequest "/u" mergeDemoParams).headers "X-Base"
        = HMap.spread fetcherMergeDemo.baseHeaders mergeDemoParams.headers "X-Base") ∧
    (∀ v, mergeDemoParams.headers "X-Base" = some v →
      (fetcherMergeDemo.buildRequest "/u" mergeDemoParams).headers "X-Base" = some v) ∧
    (mergeDemoParams.headers "X-Base" = none →
      (fetcherMergeDemo.buildRequest "/u" mergeDemoParams).headers "X-Base"
        = fetcherMergeDemo.baseHeaders "X-Base") ∧
    (∀ k2, (fetcherMergeDemo.buildRequest "/u" mergeDemoParams).opts k2
        = HMap.spread fetcherMergeDemo.baseOptions mergeDemoParams.opts k2) ∧
    (∀ k2 v, mergeDemoParams.opts k2 = some v →
      (fetcherMergeDemo.buildRequest "/u" mergeDemoParams).opts k2 = some v) ∧
    (∀ k2, mergeDemoParams.opts k2 = none →
      (fetcherMergeDemo.buildRequest "/u" mergeDemoParams).opts k2
        = fetcherMergeDemo.baseOptions k2)) :=
  ⟨Or.inl rfl, merge_precedence fetcherMergeDemo "/u" mergeDemoParams "X-Base" (Or.inl rfl)⟩

/-- C6: interceptor chains are strict left folds in registration order:
appending chains composes the folds, a newly registered handler runs
last on the previous chain's output, the dispatched request is the
request chain's final output, and the success check and decoding apply
to the response chain's final response. -/
theorem interceptor_chains_fold_left_to_right :
    (∀ (l1 l2 : List (Request → Request)) (r : Request),
      requestHandler (l1 ++ l2) r = requestHandler l2 (requestHandler l1 r)) ∧
    (∀ (f : Fetcher) (handler : Request → Request) (r : Request),
      requestHandler (f.addRequestInterceptor handler).requestInterceptors r =
        handler (requestHandler f.requestInterceptors r)) ∧
    (∀ (l1 l2 : List (RespCtx → RespCtx)) (c : RespCtx),
      responseChain (l1 ++ l2) c = responseChain l2 (responseChain l1 c)) ∧
    (∀ (f : Fetcher) (handler : RespCtx → RespCtx) (c : RespCtx),
      responseHandler (f.addResponseInterceptor handler).responseInterceptors c =
        (handler (responseChain f.responseInterceptors c)).response) ∧
    (∀ (f : Fetcher) (transport : Request → Response) (url : String) (p : ActionParams),
      f.dispatched url p = requestHandler f.requestInterceptors (f.buildRequest url p) ∧
      f.finalResponse transport url p = responseHandler f.responseInterceptors
        { request := (f.dispatched url p).clone, response := transport (f.dispatched url p) } ∧
      f.action transport url p =
        (if (f.finalResponse transport url p).ok then
          .ok (decodeBody (f.finalResponse transport url p))
         else
          .error (f.baseThrower (f.finalResponse transport url p)
            ((f.dispatched url p).clone)))) := by
  refine ⟨?_, ?_, ?_, ?_, fun f transport url p => ⟨rfl, rfl, rfl⟩⟩
  · intro l1 l2 r
    simp [requestHandler, List.foldl_append]
  · intro f handler r
    simp [Fetcher.addRequestInterceptor, requestHandler, List.foldl_append]
  · intro l1 l2 c
    simp [responseChain, List.foldl_append]
  · intro f handler c
    simp [Fetcher.addResponseInterceptor, responseHandler, responseChain, List.foldl_append]

/-- C7 counterexample: the declared signature
`delete<T>(url: string, data: object, options?: Options)` (src/index.ts
line 102) takes `data` as a required parameter, refuting the claim that
the delete operation models its body as optional. -/
theorem delete_optional_data_counterexample :
    requiresData Verb.delete = true ∧ ¬ requiresData Verb.delete = false := by
  decide

/-- C7 amended: post, patch, put and delete all declare `data` as a
required parameter (only get takes no data), and delete forwards its
required data as the DELETE request's body exactly like the other three
data-carrying verbs. -/
theorem delete_requires_data_like_other_verbs :
    requiresData Verb.delete = true ∧ requiresData Verb.post = true ∧
    requiresData Verb.patch = true ∧ requiresData Verb.put = true ∧
    requiresData Verb.get = false ∧
    (∀ (f : Fetcher) (transport : Request → Response) (url : String)
        (data : BodyValue) (options : Options),
      f.delete transport url data options = f.action transport url
        { method := "DELETE", body := some data
          headers := options.headers, opts := options.opts }) :=
  ⟨rfl, rfl, rfl, rfl, rfl, fun _ _ _ _ _ => rfl⟩

/-- C8: a form-data body removes the Content-Type entry from the merged
header record before the request is constructed, and consequently the
body is passed through raw rather than JSON-serialized. -/
theorem formdata_strips_content_type (f : Fetcher) (url : String)
    (p : ActionParams) (hfd : isFormData p.body = true) :
    (f.buildRequest url p).headers "Content-Type" = none ∧
    (∀ v, p.body = some v → (f.buildRequest url p).body = .raw v) := by
  have hhead : f.finalHeaders p "Content-Type" = none := by
    simp [Fetcher.finalHeaders, hfd, HMap.erase]
  refine ⟨hhead, ?_⟩
  intro v hv
  show encodeBody (f.finalHeaders p "Content-Type") p.body = .raw v
  rw [hhead, hv]
  simp [encodeBody]

/-- C8 witness: base header Content-Type application/json plus a
form-data body — the entry is gone and the body passes through raw. -/
theorem formdata_strips_content_type_witness :
    isFormData formParams.body = true ∧
    ((fetcherJsonCT.buildRequest "/u" formParams).headers "Content-Type" = none ∧
    (∀ v, formParams.body = some v →
      (fetcherJsonCT.buildRequest "/u" formParams).body = .raw v)) :=
  ⟨rfl, formdata_strips_content_type fetcherJsonCT "/u" formParams rfl⟩

/-- A response interceptor substituting `okJsonResponse` for whatever the
transport returned. -/
def substituteOk : RespCtx → RespCtx := fun ctx => { ctx with response := okJsonResponse }

/-- A response interceptor substituting a bare 500 response. -/
def substituteBad : RespCtx → RespCtx := fun ctx => { ctx with response := { status := 500 } }

/-- A fetcher whose single response interceptor is `substituteOk`. -/
def fetcherSubstOk : Fetcher := { responseInterceptors := [substituteOk] }

/-- A fetcher whose single response interceptor is `substituteBad`. -/
def fetcherSubstBad : Fetcher := { responseInterceptors := [substituteBad] }

/-- C9: every response interceptor receives the raw transport response
(also a non-success one) before the success check, the ok/error
classification applies to the chain's final response, and a substituting
interceptor therefore flips the outcome in either direction: a 404 raw
response becomes a decoded success, and a 200 raw response becomes a
raised 500 error. -/
theorem response_interceptors_precede_classification :
    (∀ (i : RespCtx → RespCtx) (base : Fetcher) (transport : Request → Response)
        (url : String) (p : ActionParams),
      ({ base with responseInterceptors := [i] } : Fetcher).finalResponse transport url p =
        (i { request := (({ base with responseInterceptors := [i] } : Fetcher).dispatched
                url p).clone,
             response := transport (({ base with responseInterceptors := [i] } : Fetcher).dispatched
                url p) }).response) ∧
    (∀ (f : Fetcher) (transport : Request → Response) (url : String) (p : ActionParams),
      f.action transport url p =
        (if (f.finalResponse transport url p).ok then
          .ok (decodeBody (f.finalResponse transport url p))
         else
          .error (f.baseThrower (f.finalResponse transport url p)
            ((f.dispatched url p).clone)))) ∧
    fetcherSubstOk.action transport404 "/x" demoParamsGet = .ok (.json "payload") ∧
    ({} : Fetcher).action transport404 "/x" demoParamsGet =
      .error { url := "/x", statusCode := 404 } ∧
    fetcherSubstBad.action transport200 "/x" demoParamsGet =
      .error { url := "/x", statusCode := 500 } ∧
    ({} : Fetcher).action transport200 "/x" demoParamsGet = .ok (.json "payload") := by
  refine ⟨fun i base transport url p => rfl, fun f transport url p => rfl,
    by decide, by decide, by decide, by decide⟩

/-- A base header record whose Content-Type entry carries a parameterized
media type value. -/
def paramCT : HMap := HMap.single "Content-Type" "application/json; charset=utf-8"

/-- A fetcher configured with the `paramCT` base headers. -/
def fetcherParamCT : Fetcher := { baseHeaders := paramCT }

/-- C10 counterexample: with the entry stored under exactly the key
Content-Type but with a parameterized value, a form-data body still gets
the entry removed — removal matches the key only, never the value, so
the claim's "is not removed for form-data bodies" fails here. -/
theorem header_match_counterexample :
    fetcherParamCT.mergedHeaders formParams "Content-Type"
      = some "application/json; charset=utf-8" ∧
    (fetcherParamCT.buildRequest "/u" formParams).headers "Content-Type" = none := by
  decide

/-- A base header record storing the json content type under a
lower-cased key. -/
def lowerCT : HMap := HMap.single "content-type" "application/json"

/-- A fetcher configured with the `lowerCT` base headers. -/
def fetcherLowerCT : Fetcher := { baseHeaders := lowerCT }

/-- C10 amended: serialization matches the key "Content-Type" and the
value "application/json" exactly, while the form-data removal matches
the key exactly but is value-independent: a differently-cased key
triggers neither serialization nor removal; a parameterized value does
not trigger serialization but, under the exact key, is still removed
for form-data bodies. -/
theorem header_match_exactness :
    (∀ (m : HMap) (k : String),
      m.erase "Content-Type" k = if k = "Content-Type" then none else m k) ∧
    (∀ (ct : Option String) (v : BodyValue), ct ≠ some "application/json" →
      encodeBody ct (some v) = .raw v) ∧
    (fetcherLowerCT.buildRequest "/u" objParams).body = .raw (.jsObject "record") ∧
    (fetcherLowerCT.buildRequest "/u" formParams).headers "content-type"
      = some "application/json" ∧
    (fetcherParamCT.buildRequest "/u" objParams).body = .raw (.jsObject "record") ∧
    (fetcherParamCT.buildRequest "/u" formParams).headers "Content-Type" = none := by
  refine ⟨fun m k => rfl, ?_, by decide, by decide, by decide, by decide⟩
  intro ct v hct
  simp [encodeBody, hct]

/-- C10 amended witness: a parameterized Content-Type value does not
trigger JSON serialization of a concrete object body. -/
theorem header_match_exactness_witness :
    (some "application/json; charset=utf-8" : Option String) ≠ some "application/json" ∧
    encodeBody (some "application/json; charset=utf-8") (some (.jsObject "record"))
      = .raw (.jsObject "record") :=
  ⟨by decide, header_match_exactness.2.1 (some "application/json; charset=utf-8")
    (.jsObject "record") (by decide)⟩

end GaUt
